import Mathlib

/-!
Verification of the to-do list application (ificu/ificu-ai) against its
specification.

The development shallowly embeds the relevant TypeScript code:

* `src/types/todo.ts` — the `Todo` record, priority, category and status types.
* `src/app/page.tsx` — `filteredAndSortedTodos` (search, status and priority
  filters, then sort), `handleToggleComplete` (the completion toggle and its
  local-state update / error re-fetch), `handleSubmit` (create or update).
* `src/components/todo/TodoForm.tsx` — `handleSubmit` (manual form submit)
  and `handleAiGenerate` (the AI path: combining `due_date`/`due_time` and the
  auto-submit branch).
* `src/unnamed/part_000` — the `POST /api/parse-todo` route handler.

Modelling conventions:

* Timestamps (`created_date`, `due_date`) are modelled as integers (epoch
  milliseconds): the source only ever compares them via `new Date(x)` /
  `getTime()`, which is numeric comparison.  A `due_date` that is absent
  (`null` / `undefined` / the empty string, all falsy in the source's
  `!todo.due_date` tests) is modelled as `none`.
* The JavaScript string builtins used by the source are modelled directly
  over the character list of a Lean `String`: `jsTrim` for `.trim()`,
  `jsToLower` for `.toLowerCase()` (ASCII case mapping), `jsIncludes` for
  `.includes()`.  `title.localeCompare` is modelled as code-point
  lexicographic comparison; no claim depends on the locale order.
* `Array.prototype.sort` (stable since ES2019) is modelled by
  `List.mergeSort` with the boolean relation `comparator a b ≤ 0`.
* The fallible route handler takes the outcome of the downstream model call
  as an explicit `Except` argument; the thrown value distinguishes
  `instanceof Error` from other throws, as the handler's catch block does.
-/

/-- Task priority, from `src/types/todo.ts` (`TodoPriority`). -/
inductive TodoPriority
  | high
  | medium
  | low
deriving DecidableEq, Repr

/-- Task category, from `src/types/todo.ts` (`TodoCategory`).  The source's
labels are the Korean strings 업무 (work), 개인 (personal), 학습 (study). -/
inductive TodoCategory
  | work
  | personal
  | study
deriving DecidableEq, Repr

/-- A stored task, from `src/types/todo.ts` (`Todo`).  `description`,
`due_date`, `priority` and `category` are the source's optional/nullable
fields; timestamps are integers as explained in the file header. -/
structure Todo where
  id : String
  user_id : String
  title : String
  description : Option String
  created_date : Int
  due_date : Option Int
  priority : Option TodoPriority
  category : Option (List TodoCategory)
  completed : Bool
deriving DecidableEq, Repr

/-- List-view status, from `src/types/todo.ts` (`TodoStatus`): the source's
labels are 진행 중 (in progress), 완료 (completed), 지연 (overdue). -/
inductive TodoStatus
  | inProgress
  | completed
  | overdue
deriving DecidableEq, Repr

/-- Sort key of the list view, from `src/app/page.tsx` (`sortBy`). -/
inductive SortKey
  | priority
  | due_date
  | created_date
  | title
deriving DecidableEq, Repr

/-- The list view's filter/sort configuration, from the `searchQuery`,
`statusFilter`, `priorityFilter` and `sortBy` states of `src/app/page.tsx`.
`none` stands for the source's 전체 ("all") filter value. -/
structure ViewConfig where
  searchQuery : String
  statusFilter : Option TodoStatus
  priorityFilter : Option TodoPriority
  sortBy : SortKey

/-- JavaScript `String.prototype.trim`, modelled over the character list:
whitespace is stripped from both ends. -/
def jsTrim (s : String) : String :=
  ⟨((s.data.dropWhile Char.isWhitespace).reverse.dropWhile Char.isWhitespace).reverse⟩

/-- JavaScript `String.prototype.toLowerCase`, modelled as per-character
ASCII lowercasing. -/
def jsToLower (s : String) : String :=
  ⟨s.data.map Char.toLower⟩

/-- Scan for `String.prototype.includes`: does `sub` occur contiguously in
the scanned list? -/
def jsIncludesAux (sub : List Char) : List Char → Bool
  | [] => sub.isEmpty
  | c :: rest => sub.isPrefixOf (c :: rest) || jsIncludesAux sub rest

/-- JavaScript `s.includes(sub)`: `sub` is a contiguous substring of `s`. -/
def jsIncludes (s sub : String) : Bool :=
  jsIncludesAux sub.data s.data

/-- The search predicate of `filteredAndSortedTodos` (`src/app/page.tsx`
lines 119-124): the lowercased query against the lowercased title only. -/
def searchMatch (searchQuery : String) (todo : Todo) : Bool :=
  jsIncludes (jsToLower todo.title) (jsToLower searchQuery)

/-- The 완료 (completed) status test (`src/app/page.tsx` line 131). -/
def statusCompleted (todo : Todo) : Bool :=
  todo.completed

/-- The 진행 중 (in progress) status test (`src/app/page.tsx` lines 133-138):
not completed and (no due date or due date at or after `now`). -/
def statusInProgress (now : Int) (todo : Todo) : Bool :=
  !todo.completed &&
    (match todo.due_date with
     | none => true
     | some d => decide (now ≤ d))

/-- The 지연 (overdue) status test (`src/app/page.tsx` lines 139-145):
not completed, a due date is present, and it is before `now`. -/
def statusOverdue (now : Int) (todo : Todo) : Bool :=
  !todo.completed &&
    (match todo.due_date with
     | none => false
     | some d => decide (d < now))

/-- The status-filter predicate (`src/app/page.tsx` lines 129-147), for a
specific (non-전체) selected status. -/
def statusMatch (f : TodoStatus) (now : Int) (todo : Todo) : Bool :=
  match f with
  | .completed => statusCompleted todo
  | .inProgress => statusInProgress now todo
  | .overdue => statusOverdue now todo

/-- `priorityOrder[a.priority || "low"]` (`src/app/page.tsx` lines 158-160):
high 3, medium 2, low 1, with an absent priority falling back to "low". -/
def priorityOrder : Option TodoPriority → Int
  | some .high => 3
  | some .medium => 2
  | some .low => 1
  | none => 1

/-- `a.title.localeCompare(b.title)` modelled as code-point lexicographic
comparison returning -1/0/1. -/
def localeCompareModel (a b : String) : Int :=
  match compare a b with
  | .lt => -1
  | .eq => 0
  | .gt => 1

/-- The sort comparator of `filteredAndSortedTodos` (`src/app/page.tsx`
lines 156-178), one case per sort key. -/
def todoCmp (k : SortKey) (a b : Todo) : Int :=
  match k with
  | .priority => priorityOrder b.priority - priorityOrder a.priority
  | .due_date =>
      match a.due_date, b.due_date with
      | none, none => 0
      | none, some _ => 1
      | some _, none => -1
      | some da, some db => da - db
  | .created_date => b.created_date - a.created_date
  | .title => localeCompareModel a.title b.title

/-- The comparator as a boolean total preorder, as `Array.prototype.sort`
consumes it: `a` may come before `b` when the comparator is non-positive. -/
def todoLe (k : SortKey) (a b : Todo) : Bool :=
  decide (todoCmp k a b ≤ 0)

/-- The search step of `filteredAndSortedTodos` (`src/app/page.tsx` lines
119-124): skipped when the trimmed query is empty (falsy), otherwise a
filter on the title match. -/
def searchStep (searchQuery : String) (todos : List Todo) : List Todo :=
  if (jsTrim searchQuery).data.isEmpty then todos
  else todos.filter (searchMatch searchQuery)

/-- The status-filter step of `filteredAndSortedTodos` (`src/app/page.tsx`
lines 127-148): skipped on 전체 (`none`). -/
def statusStep (statusFilter : Option TodoStatus) (now : Int) (todos : List Todo) :
    List Todo :=
  match statusFilter with
  | none => todos
  | some sf => todos.filter (statusMatch sf now)

/-- The priority-filter step of `filteredAndSortedTodos` (`src/app/page.tsx`
lines 151-153): skipped on 전체 (`none`), otherwise strict equality with the
selected priority. -/
def priorityStep (priorityFilter : Option TodoPriority) (todos : List Todo) : List Todo :=
  match priorityFilter with
  | none => todos
  | some pf => todos.filter (fun todo => decide (todo.priority = some pf))

/-- `filteredAndSortedTodos` (`src/app/page.tsx` lines 115-181): copy the
stored list, apply the search, status and priority filters in that order,
then sort by the selected key. -/
def filteredAndSortedTodos (cfg : ViewConfig) (now : Int) (todos : List Todo) : List Todo :=
  (priorityStep cfg.priorityFilter
      (statusStep cfg.statusFilter now
        (searchStep cfg.searchQuery todos))).mergeSort (todoLe cfg.sortBy)

/-- The local-state update of the completion toggle (`src/app/page.tsx`
lines 270-272): flip `completed` on the record with the given id. -/
def toggleComplete (todos : List Todo) (id : String) : List Todo :=
  todos.map (fun t => if t.id == id then { t with completed := !t.completed } else t)

/-- One observable step of `handleToggleComplete` (`src/app/page.tsx`
lines 245-281), in the order the handler performs them. -/
inductive ToggleStep
  | findTodo
  | remoteUpdateAwaited (ok : Bool)
  | localStateUpdate
  | refetchList
deriving DecidableEq, Repr

/-- `handleToggleComplete` (`src/app/page.tsx` lines 245-281) as a step
trace plus the resulting local list state.  The handler looks the task up,
awaits the Supabase update, and only then (on success) updates the local
list; on failure it re-fetches the authoritative list (`serverTodos`). -/
def handleToggleComplete (todos serverTodos : List Todo) (id : String)
    (serverOk : Bool) : List ToggleStep × List Todo :=
  match todos.find? (fun t => t.id == id) with
  | none => ([.findTodo], todos)
  | some _ =>
      if serverOk then
        ([.findTodo, .remoteUpdateAwaited true, .localStateUpdate],
         toggleComplete todos id)
      else
        ([.findTodo, .remoteUpdateAwaited false, .refetchList], serverTodos)

/-- Form payload, from `src/types/todo.ts` (`TodoInput`).  The form state
always populates every field (optional source fields hold the empty string /
default when untouched), so the fields are total here. -/
structure TodoInput where
  title : String
  description : String
  due_date : String
  priority : TodoPriority
  category : List TodoCategory
deriving DecidableEq, Repr

/-- JavaScript `x || d` for an optional string: the default replaces a
missing or empty (falsy) value. -/
def jsOrStr (o : Option String) (d : String) : String :=
  match o with
  | none => d
  | some s => if s.data.isEmpty then d else s

/-- A parser response object, the schema of `src/unnamed/part_000`
(`TodoSchema`): `title`, `priority` and `category` are required,
`due_date`, `due_time` and `description` optional. -/
structure ParseResult where
  title : String
  due_date : Option String
  due_time : Option String
  priority : TodoPriority
  category : List TodoCategory
  description : Option String
deriving DecidableEq, Repr

/-- The due-value combining step of `handleAiGenerate`
(`src/components/todo/TodoForm.tsx` lines 162-171): a (truthy) `due_date`
is joined with the `due_time` by `"T"`, a missing time defaulting to
`"09:00"`; without a `due_date` the value stays the empty string. -/
def combineDue (due_date due_time : Option String) : String :=
  match due_date with
  | none => ""
  | some d =>
      if d.data.isEmpty then ""
      else
        match due_time with
        | none => d ++ "T09:00"
        | some t => if t.data.isEmpty then d ++ "T09:00" else d ++ "T" ++ t

/-- The `generatedData` record of `handleAiGenerate`
(`src/components/todo/TodoForm.tsx` lines 173-179), built from the parser
response with JavaScript `||` defaulting. -/
def aiGeneratedInput (r : ParseResult) : TodoInput :=
  { title := jsOrStr (some r.title) ""
    description := jsOrStr r.description ""
    due_date := combineDue r.due_date r.due_time
    priority := r.priority
    category := r.category }

/-- The manual form submit `handleSubmit`
(`src/components/todo/TodoForm.tsx` lines 106-119): `some` payload when
`onSubmit` is invoked, `none` when the blank-title guard returns early.
The payload is the form data with the selected categories spliced in. -/
def formHandleSubmit (formData : TodoInput) (selectedCategories : List TodoCategory) :
    Option TodoInput :=
  if (jsTrim formData.title).data.isEmpty then none
  else some { formData with category := selectedCategories }

/-- `handleAiGenerate` (`src/components/todo/TodoForm.tsx` lines 138-209)
viewed as "what payload reaches `onSubmit`": `none` on the blank-input
guard, on a failed parse request, and on the fill-the-form-only branch;
with `autoSubmit` and a successful parse, `generatedData` is submitted
unconditionally. -/
def handleAiGenerate (aiInput : String) (autoSubmit : Bool)
    (outcome : Except String ParseResult) : Option TodoInput :=
  if (jsTrim aiInput).data.isEmpty then none
  else
    match outcome with
    | .error _ => none
    | .ok r => if autoSubmit then some (aiGeneratedInput r) else none

/-- The value the route handler reads from the request body's `input`
field: JavaScript distinguishes only these shapes in the handler's tests. -/
inductive JsValue
  | undef
  | jsNull
  | bool (b : Bool)
  | num (n : Int)
  | str (s : String)
deriving DecidableEq, Repr

/-- JavaScript truthiness of a `JsValue` (`!input` in the handler). -/
def jsTruthy : JsValue → Bool
  | .undef => false
  | .jsNull => false
  | .bool b => b
  | .num n => decide (n ≠ 0)
  | .str s => !s.data.isEmpty

/-- `typeof input === "string"`. -/
def isStringVal : JsValue → Bool
  | .str _ => true
  | _ => false

/-- The string carried by a `JsValue` known to be a string. -/
def strOf : JsValue → String
  | .str s => s
  | _ => ""

/-- `!process.env.GOOGLE_GENERATIVE_AI_API_KEY` negated: the credential is
set when the variable is present and non-empty (truthy). -/
def envKeySet : Option String → Bool
  | none => false
  | some s => !s.data.isEmpty

/-- What the downstream model call threw: an `Error` instance (whose
message the handler echoes) or any other value. -/
inductive ThrownErr
  | jsError (msg : String)
  | nonError
deriving DecidableEq, Repr

/-- A response body of the route handler: the schema object on success,
`{ error: string }` otherwise. -/
inductive RespBody
  | ok (r : ParseResult)
  | err (msg : String)
deriving DecidableEq, Repr

/-- An HTTP response of the route handler. -/
structure ApiResponse where
  status : Nat
  body : RespBody
deriving DecidableEq, Repr

/-- How the route handler of `src/unnamed/part_000` answers from the
outcome of the model call: 200 with the parsed object on success (line 87),
500 echoing the message for a thrown `Error` (lines 133-138), 500 with a
generic message for any other thrown value (lines 140-143). -/
def postModelResponse : Except ThrownErr ParseResult → ApiResponse
  | .ok r => ⟨200, .ok r⟩
  | .error (.jsError msg) =>
      ⟨500, .err ("할 일 파싱 중 오류가 발생했습니다: " ++ msg)⟩
  | .error .nonError =>
      ⟨500, .err "할 일 파싱 중 알 수 없는 오류가 발생했습니다."⟩

/-- The `POST` route handler of `src/unnamed/part_000` (lines 19-145):
validate the `input` field, check the credential, then answer from the
outcome of the model call.  The 404 model-listing branch of the catch block
only logs and does not change the response. -/
def POST (input : JsValue) (apiKey : Option String)
    (callResult : Except ThrownErr ParseResult) : ApiResponse :=
  if jsTruthy input = false ∨ isStringVal input = false then
    ⟨400, .err "입력된 텍스트가 올바르지 않습니다."⟩
  else if (jsTrim (strOf input)).length = 0 then
    ⟨400, .err "할 일 내용을 입력해주세요."⟩
  else if envKeySet apiKey = false then
    ⟨500, .err "AI 서비스가 설정되지 않았습니다."⟩
  else
    postModelResponse callResult

/-- Concrete parser response whose `title` is whitespace-only, as the
schema (`z.string()`) permits. -/
def aiResponseWhitespaceTitle : ParseResult :=
  { title := " ", due_date := none, due_time := none, priority := .medium,
    category := [], description := none }

/-- Acceptable adjacent-or-later placement for the due-date sort: `a` may
precede `b` unless `a` lacks a due date while `b` has one; two dated tasks
must be in ascending due-date order. -/
def dueOrdered (a b : Todo) : Prop :=
  match a.due_date, b.due_date with
  | none, some _ => False
  | some da, some db => da ≤ db
  | _, _ => True

/-- Concrete task for the search-filter witness. -/
def w7 : Todo :=
  { id := "1", user_id := "u", title := "Team MEETING prep", description := some "notes",
    created_date := 0, due_date := none, priority := none, category := none,
    completed := false }

/-- Concrete task for the overdue-toggle witness. -/
def w9 : Todo :=
  { id := "a", user_id := "u", title := "overdue task", description := none,
    created_date := 0, due_date := some 1, priority := some .medium,
    category := some [.work], completed := false }

/-- Concrete response object for the endpoint witness. -/
def w2 : ParseResult :=
  { title := "회의 준비", due_date := some "2024-01-02", due_time := some "10:00",
    priority := .medium, category := [.work], description := none }

theorem string_eq_empty_iff (s : String) : s = "" ↔ s.data = [] := by
  cases s with
  | mk l =>
    constructor
    · intro h
      exact congrArg String.data h
    · intro h
      subst h
      rfl

theorem jsTrim_ne_of_ne (s : String) (h : jsTrim s ≠ "") : s ≠ "" := by
  intro hs
  subst hs
  exact h rfl

theorem post_cond1_false (s : String) (hs : s ≠ "") :
    ¬(jsTruthy (JsValue.str s) = false ∨ isStringVal (JsValue.str s) = false) := by
  rintro (h | h)
  · apply hs
    have hb : s.data = [] := by simpa [jsTruthy] using h
    exact (string_eq_empty_iff s).mpr hb
  · exact absurd h (by simp [isStringVal])

theorem post_cond2_false (s : String) (htrim : jsTrim s ≠ "") :
    ¬((jsTrim (strOf (JsValue.str s))).length = 0) := by
  intro h
  apply htrim
  have h2 : (jsTrim s).data.length = 0 := h
  exact (string_eq_empty_iff _).mpr (List.length_eq_zero.mp h2)

/-- C1: at any fixed evaluation time `now`, the three status predicates of
the list view partition the tasks — every task is counted in exactly one of
the buckets in progress / completed / overdue — and a task with no due date
is never overdue. -/
theorem status_buckets_exactly_one (t : Todo) (now : Int) :
    ([statusInProgress now t, statusCompleted t, statusOverdue now t].count true = 1) ∧
    statusOverdue now { t with due_date := none } = false := by
  constructor
  · cases hc : t.completed <;> rcases hd : t.due_date with _ | d <;>
      simp [statusInProgress, statusCompleted, statusOverdue, hc, hd, List.count_cons]
    by_cases h : now ≤ d <;> simp [h]
  · simp [statusOverdue]

/-- C2: the parse endpoint answers 400 with an error body when the `input`
field is not a string or is an empty/whitespace-only string (for every
credential state, so validation runs before the credential check), 500 with
an error body when the credential is absent, and 500 with an error body —
never a success body — when the downstream model call throws. -/
theorem post_error_responses (input : JsValue) (key : Option String)
    (callResult : Except ThrownErr ParseResult) :
    (isStringVal input = false →
       (POST input key callResult).status = 400 ∧
       ∃ m, (POST input key callResult).body = RespBody.err m) ∧
    (∀ s, input = JsValue.str s → jsTrim s = "" →
       (POST input key callResult).status = 400 ∧
       ∃ m, (POST input key callResult).body = RespBody.err m) ∧
    (∀ s, input = JsValue.str s → jsTrim s ≠ "" → envKeySet key = false →
       (POST input key callResult).status = 500 ∧
       ∃ m, (POST input key callResult).body = RespBody.err m) ∧
    (∀ s e, input = JsValue.str s → jsTrim s ≠ "" → envKeySet key = true →
       callResult = Except.error e →
       (POST input key callResult).status = 500 ∧
       ∃ m, (POST input key callResult).body = RespBody.err m) ∧
    (∀ e r, callResult = Except.error e →
       (POST input key callResult).body ≠ RespBody.ok r) := by
  have invalid400 : ∀ h, POST input key callResult =
      ⟨400, RespBody.err "입력된 텍스트가 올바르지 않습니다."⟩ := fun h => by
    rw [POST, if_pos h]
  refine ⟨?_, ?_, ?_, ?_, ?_⟩
  · intro h
    rw [invalid400 (Or.inr h)]
    exact ⟨rfl, _, rfl⟩
  · rintro s rfl htrim
    by_cases hs : s = ""
    · subst hs
      rw [invalid400 (Or.inl rfl)]
      exact ⟨rfl, _, rfl⟩
    · have h2 : (jsTrim (strOf (JsValue.str s))).length = 0 := by
        show (jsTrim s).length = 0
        rw [htrim]
        rfl
      rw [POST, if_neg (post_cond1_false s hs), if_pos h2]
      exact ⟨rfl, _, rfl⟩
  · rintro s rfl htrim hkey
    rw [POST, if_neg (post_cond1_false s (jsTrim_ne_of_ne s htrim)),
      if_neg (post_cond2_false s htrim), if_pos hkey]
    exact ⟨rfl, _, rfl⟩
  · rintro s e rfl htrim hkey rfl
    have hkey2 : ¬(envKeySet key = false) := by simp [hkey]
    rw [POST, if_neg (post_cond1_false s (jsTrim_ne_of_ne s htrim)),
      if_neg (post_cond2_false s htrim), if_neg hkey2]
    rcases e with msg | _
    · exact ⟨rfl, _, rfl⟩
    · exact ⟨rfl, _, rfl⟩
  · rintro e r rfl
    rw [POST]
    by_cases h1 : jsTruthy input = false ∨ isStringVal input = false
    · rw [if_pos h1]
      simp
    · rw [if_neg h1]
      by_cases h2 : (jsTrim (strOf input)).length = 0
      · rw [if_pos h2]
        simp
      · rw [if_neg h2]
        by_cases h3 : envKeySet key = false
        · rw [if_pos h3]
          simp
        · rw [if_neg h3]
          rcases e with msg | _ <;> simp [postModelResponse]

theorem data_isEmpty_ne_true (s : String) (h : s ≠ "") : ¬(s.data.isEmpty = true) := by
  intro hb
  exact h ((string_eq_empty_iff s).mpr (List.isEmpty_iff.mp hb))

/-- C3: in `handleToggleComplete`, the local-state update does not precede
the awaited server update — the success-path trace awaits the Supabase
update first and only then updates the local list — while the failure path
does end in the full list re-fetch.  (This is the divergence from the
claim/spec, which describe the update as optimistic.) -/
theorem toggle_awaits_server_before_local_update :
    (handleToggleComplete
        [{ id := "t1", user_id := "u", title := "task", description := none,
           created_date := 0, due_date := some 1, priority := none, category := none,
           completed := false }] [] "t1" true).1 =
      [ToggleStep.findTodo, ToggleStep.remoteUpdateAwaited true, ToggleStep.localStateUpdate] ∧
    (handleToggleComplete
        [{ id := "t1", user_id := "u", title := "task", description := none,
           created_date := 0, due_date := some 1, priority := none, category := none,
           completed := false }] [] "t1" false).1 =
      [ToggleStep.findTodo, ToggleStep.remoteUpdateAwaited false, ToggleStep.refetchList] := by
  constructor <;> decide

/-- C4 counterexample: the AI auto-submit path invokes the submit handler
with a record whose title trims to the empty string — the parser's title is
forwarded with no non-emptiness check. -/
theorem ai_autosubmit_whitespace_title :
    handleAiGenerate "내일 회의 준비" true (Except.ok aiResponseWhitespaceTitle) =
      some (aiGeneratedInput aiResponseWhitespaceTitle) ∧
    jsTrim (aiGeneratedInput aiResponseWhitespaceTitle).title = "" := by
  constructor <;> decide

/-- C4 (amended): the manual form-submit path only ever submits a record
whose title is non-empty after trimming; the AI auto-submit path forwards
`generatedData` (the parser's title, empty-string defaulted) to the submit
handler without any title check. -/
theorem manual_submit_title_nonempty :
    (∀ formData selectedCategories d,
        formHandleSubmit formData selectedCategories = some d → jsTrim d.title ≠ "") ∧
    (∀ s r, jsTrim s ≠ "" →
        handleAiGenerate s true (Except.ok r) = some (aiGeneratedInput r)) := by
  constructor
  · rintro fd cats d hsub
    unfold formHandleSubmit at hsub
    by_cases h : ((jsTrim fd.title).data.isEmpty = true)
    · rw [if_pos h] at hsub
      cases hsub
    · rw [if_neg h] at hsub
      injection hsub with hd
      subst hd
      intro hq
      exact h (List.isEmpty_iff.mpr ((string_eq_empty_iff _).mp hq))
  · intro s r hs
    unfold handleAiGenerate
    rw [if_neg (data_isEmpty_ne_true (jsTrim s) hs)]
    rfl

/-- C5: the form's due-value combining step: date and time join as
`date ++ "T" ++ time`; a date without a (truthy) time defaults the time to
09:00; no date yields the empty value regardless of the time. -/
theorem combine_due_rules (r : ParseResult) :
    (aiGeneratedInput r).due_date = combineDue r.due_date r.due_time ∧
    (∀ d tm, r.due_date = some d → d ≠ "" → r.due_time = some tm → tm ≠ "" →
       combineDue r.due_date r.due_time = d ++ "T" ++ tm) ∧
    (∀ d, r.due_date = some d → d ≠ "" →
       (r.due_time = none ∨ r.due_time = some "") →
       combineDue r.due_date r.due_time = d ++ "T09:00") ∧
    (r.due_date = none → combineDue r.due_date r.due_time = "") := by
  refine ⟨rfl, ?_, ?_, ?_⟩
  · intro d tm hdd hd hdt htm
    rw [hdd, hdt]
    show (if d.data.isEmpty = true then ""
      else if tm.data.isEmpty = true then d ++ "T09:00" else d ++ "T" ++ tm) = d ++ "T" ++ tm
    rw [if_neg (data_isEmpty_ne_true d hd), if_neg (data_isEmpty_ne_true tm htm)]
  · rintro d hdd hd (hdt | hdt) <;> rw [hdd, hdt]
    · show (if d.data.isEmpty = true then "" else d ++ "T09:00") = d ++ "T09:00"
      rw [if_neg (data_isEmpty_ne_true d hd)]
    · show (if d.data.isEmpty = true then ""
        else if ("" : String).data.isEmpty = true then d ++ "T09:00" else d ++ "T" ++ "") =
          d ++ "T09:00"
      rw [if_neg (data_isEmpty_ne_true d hd)]
      rfl
  · intro hdd
    rw [hdd]
    rfl

theorem dueLe_trans (a b c : Todo)
    (hab : todoLe SortKey.due_date a b = true) (hbc : todoLe SortKey.due_date b c = true) :
    todoLe SortKey.due_date a c = true := by
  unfold todoLe todoCmp at *
  rcases ha : a.due_date with _ | da <;> rcases hb : b.due_date with _ | db <;>
    rcases hc : c.due_date with _ | dc <;> simp only [ha, hb, hc] at * <;>
    simp_all
  all_goals omega

theorem dueLe_total (a b : Todo) :
    (todoLe SortKey.due_date a b || todoLe SortKey.due_date b a) = true := by
  unfold todoLe todoCmp
  rcases ha : a.due_date with _ | da <;> rcases hb : b.due_date with _ | db <;>
    simp only [ha, hb] <;> simp
  omega

theorem dueLe_imp_dueOrdered (a b : Todo) (h : todoLe SortKey.due_date a b = true) :
    dueOrdered a b := by
  unfold todoLe todoCmp at h
  unfold dueOrdered
  rcases ha : a.due_date with _ | da <;> rcases hb : b.due_date with _ | db <;>
    simp only [ha, hb] at * <;> simp_all

/-- C6: sorting by due date — under any filter configuration — yields a view
in which every task without a due date comes after every task with one and
dated tasks appear in ascending due-date order; with no filters active the
view is a permutation of the input list. -/
theorem sort_by_due_date_order (q : String) (sf : Option TodoStatus)
    (pf : Option TodoPriority) (now : Int) (l : List Todo) :
    List.Pairwise dueOrdered
      (filteredAndSortedTodos ⟨q, sf, pf, SortKey.due_date⟩ now l) ∧
    (filteredAndSortedTodos ⟨"", none, none, SortKey.due_date⟩ now l).Perm l := by
  constructor
  · unfold filteredAndSortedTodos
    exact (List.sorted_mergeSort dueLe_trans dueLe_total _).imp
      (fun h => dueLe_imp_dueOrdered _ _ h)
  · unfold filteredAndSortedTodos
    simp only [jsTrim]
    exact List.mergeSort_perm l _

theorem jsIncludesAux_iff_substring (sub l : List Char) :
    jsIncludesAux sub l = true ↔ sub <:+: l := by
  induction l with
  | nil =>
    simp [jsIncludesAux, List.isEmpty_iff, List.infix_nil]
  | cons c rest ih =>
    simp [jsIncludesAux, List.isPrefixOf_iff_prefix, ih, List.infix_cons_iff]

theorem jsIncludes_iff_substring (s sub : String) :
    jsIncludes s sub = true ↔ sub.data <:+: s.data :=
  jsIncludesAux_iff_substring sub.data s.data

/-- C7: for a non-blank query (and no other filters), a task is in the view
exactly when it is stored and the lowercased query occurs as a substring of
its lowercased title; the description field never affects the search
predicate. -/
theorem search_filters_by_title_only (q : String) (k : SortKey) (now : Int)
    (l : List Todo) (t : Todo) (hq : jsTrim q ≠ "") :
    (t ∈ filteredAndSortedTodos ⟨q, none, none, k⟩ now l ↔
       t ∈ l ∧ (jsToLower q).data <:+: (jsToLower t.title).data) ∧
    (∀ dsc, searchMatch q { t with description := dsc } = searchMatch q t) := by
  constructor
  · have hne : ¬((jsTrim q).data.isEmpty = true) := by
      intro h
      exact hq ((string_eq_empty_iff _).mpr (List.isEmpty_iff.mp h))
    rw [show filteredAndSortedTodos ⟨q, none, none, k⟩ now l =
        (searchStep q l).mergeSort (todoLe k) from rfl]
    unfold searchStep
    rw [if_neg hne]
    rw [(List.mergeSort_perm _ _).mem_iff, List.mem_filter]
    unfold searchMatch
    rw [jsIncludes_iff_substring]
  · intro dsc
    rfl

/-- C8: for a specific priority filter (and no other filters), a task is in
the view exactly when it is stored and its priority field equals the
selected value; in particular a task with an absent priority is excluded. -/
theorem priority_filter_exact (p : TodoPriority) (k : SortKey) (now : Int)
    (l : List Todo) (t : Todo) :
    (t ∈ filteredAndSortedTodos ⟨"", none, some p, k⟩ now l ↔
       t ∈ l ∧ t.priority = some p) ∧
    { t with priority := none } ∉ filteredAndSortedTodos ⟨"", none, some p, k⟩ now l := by
  have hmem : ∀ u : Todo,
      u ∈ filteredAndSortedTodos ⟨"", none, some p, k⟩ now l ↔
        u ∈ l ∧ u.priority = some p := by
    intro u
    rw [show filteredAndSortedTodos ⟨"", none, some p, k⟩ now l =
        (l.filter (fun todo => decide (todo.priority = some p))).mergeSort (todoLe k) from rfl]
    rw [(List.mergeSort_perm _ _).mem_iff, List.mem_filter]
    simp
  refine ⟨hmem t, ?_⟩
  intro hin
  have h2 := ((hmem _).mp hin).2
  simp at h2

/-- C9: a task that sits in the overdue bucket (not completed, due before
`now`) moves, under the completion toggle's local-state update, to a record
that is out of the overdue bucket and in the completed bucket at the same
`now`. -/
theorem toggle_moves_overdue_to_completed (todos : List Todo) (t : Todo) (now d : Int)
    (hmem : t ∈ todos) (hnc : t.completed = false) (hdue : t.due_date = some d)
    (hlt : d < now) :
    statusOverdue now t = true ∧
    { t with completed := true } ∈ toggleComplete todos t.id ∧
    statusOverdue now { t with completed := true } = false ∧
    statusCompleted { t with completed := true } = true := by
  refine ⟨?_, ?_, ?_, rfl⟩
  · simp [statusOverdue, hnc, hdue, hlt]
  · have h := List.mem_map_of_mem
      (fun x => if x.id == t.id then { x with completed := !x.completed } else x) hmem
    simp only [beq_self_eq_true, if_true, hnc, Bool.not_false] at h
    exact h
  · simp [statusOverdue]

/-- C10: the filtered-and-sorted view is a sub-permutation of the stored
list — every record of the view is, field for field, a record of the input,
with no record created or duplicated; the computation itself is a pure
function of the stored list. -/
theorem filtered_view_subperm (cfg : ViewConfig) (now : Int) (l : List Todo) :
    (filteredAndSortedTodos cfg now l).Subperm l := by
  have s1 : (searchStep cfg.searchQuery l).Sublist l := by
    unfold searchStep
    split
    · exact List.Sublist.refl _
    · exact List.filter_sublist _
  have s2 : (statusStep cfg.statusFilter now (searchStep cfg.searchQuery l)).Sublist
      (searchStep cfg.searchQuery l) := by
    unfold statusStep
    rcases cfg.statusFilter with _ | sf
    · exact List.Sublist.refl _
    · exact List.filter_sublist _
  have s3 : (priorityStep cfg.priorityFilter
        (statusStep cfg.statusFilter now (searchStep cfg.searchQuery l))).Sublist
      (statusStep cfg.statusFilter now (searchStep cfg.searchQuery l)) := by
    unfold priorityStep
    rcases cfg.priorityFilter with _ | pf
    · exact List.Sublist.refl _
    · exact List.filter_sublist _
  exact ((List.mergeSort_perm _ _).subperm).trans
    (((s3.trans s2).trans s1).subperm)

theorem search_filters_by_title_only_witness :
    (w7 ∈ filteredAndSortedTodos ⟨"meet", none, none, SortKey.created_date⟩ 0 [w7] ↔
       w7 ∈ [w7] ∧ (jsToLower "meet").data <:+: (jsToLower w7.title).data) ∧
    (∀ dsc, searchMatch "meet" { w7 with description := dsc } = searchMatch "meet" w7) :=
  search_filters_by_title_only "meet" SortKey.created_date 0 [w7] w7 (by decide)

theorem toggle_moves_overdue_to_completed_witness :
    statusOverdue 5 w9 = true ∧
    { w9 with completed := true } ∈ toggleComplete [w9] w9.id ∧
    statusOverdue 5 { w9 with completed := true } = false ∧
    statusCompleted { w9 with completed := true } = true :=
  toggle_moves_overdue_to_completed [w9] w9 5 1 (List.mem_cons_self w9 []) rfl rfl
    (by decide)

theorem post_error_responses_witness :
    (POST (JsValue.num 5) none (Except.ok w2)).status = 400 ∧
    (POST (JsValue.str " ") (some "k") (Except.ok w2)).status = 400 ∧
    (POST (JsValue.str "hi") none (Except.ok w2)).status = 500 ∧
    (POST (JsValue.str "hi") (some "k") (Except.error (ThrownErr.jsError "boom"))).status
      = 500 ∧
    (POST (JsValue.str "hi") (some "k")
        (Except.error (ThrownErr.jsError "boom"))).body ≠ RespBody.ok w2 :=
  ⟨((post_error_responses (JsValue.num 5) none (Except.ok w2)).1 rfl).1,
   ((post_error_responses (JsValue.str " ") (some "k") (Except.ok w2)).2.1 " " rfl
      (by decide)).1,
   ((post_error_responses (JsValue.str "hi") none (Except.ok w2)).2.2.1 "hi" rfl
      (by decide) rfl).1,
   ((post_error_responses (JsValue.str "hi") (some "k")
        (Except.error (ThrownErr.jsError "boom"))).2.2.2.1 "hi" (ThrownErr.jsError "boom")
      rfl (by decide) rfl rfl).1,
   (post_error_responses (JsValue.str "hi") (some "k")
        (Except.error (ThrownErr.jsError "boom"))).2.2.2.2 (ThrownErr.jsError "boom") w2
      rfl⟩
